import Mathlib

/-!
Verification of SimpleNoiseGenerator, a two-script terrain-rendering
repository.  The single source file under version control here is
src/terrain/run.py: a command-line wrapper that loads a 3D terrain mesh
from a .ply file with pyvista, colors it with a color map, renders it
off screen and saves a screenshot.  The second, batch variant of the
script (ten numbered frames stitched into a looping GIF) is not in the
tree; it is modelled from the specification below.

The embedding records every call into the third-party libraries as an
element of a trace, so that order, arguments and presence of each
library call become provable facts.
-/

namespace Terrain

/-- A mesh as handled by the 3D library: the names of the per-point data
arrays it carries (`mesh.point_data`), and the name of its active
scalars (`mesh.active_scalars_name`).  Geometry is irrelevant to the
script's control flow and is not modelled. -/
structure Mesh where
  pointData : List String
  activeScalarsName : String
deriving Repr, DecidableEq

/-- Model of `mesh.elevation()` (run.py line 31): returns a mesh that
additionally carries an "Elevation" point-data array computed from the
geometry, which becomes the active scalars. -/
def Mesh.elevation (m : Mesh) : Mesh :=
  { pointData := m.pointData ++ ["Elevation"], activeScalarsName := "Elevation" }

/-- One call into the third-party 3D visualization / rendering library,
in the order the script can make them (run.py lines 27-61). -/
inductive Call where
  | read (path : String)
  | plotterInit (offScreen : Bool)
  | setBackground (color : String)
  | addMesh (mesh : Mesh) (cmap : String) (showEdges : Bool) (scalars : String)
      (opacity : ℚ) (lighting : Bool) (showScalarBar : Bool)
  | viewIsometric
  | viewXY
  | viewXZ
  | viewYZ
  | setViewup (v : List Int)
  | showScreenshot (path : String)
deriving Repr, DecidableEq

/-- The camera-view dispatch of run.py lines 49-56: an if/elif chain on
`view_type` with no else branch, so any value outside the four presets
makes no view call at all. -/
def viewDispatch (view_type : String) : List Call :=
  if view_type = "isometric" then [Call.viewIsometric]
  else if view_type = "xy" then [Call.viewXY]
  else if view_type = "xz" then [Call.viewXZ]
  else if view_type = "yz" then [Call.viewYZ]
  else []

/-- `render_terrain` of run.py lines 8-63.  `load` stands for the file
system as seen by `pv.read`: `none` means the library raises (the
script does not catch it), `some m` means the mesh `m` is loaded.  On
success the result is the trace of library calls made, paired with the
function's return value. -/
def renderTerrain (load : String → Option Mesh)
    (input_file : String := "images/eroded_terrain.ply")
    (output_file : String := "terrain_render.png")
    (cmap : String := "terrain")
    (background_color : String := "black")
    (view_type : String := "isometric") : Option (List Call × String) :=
  match load input_file with
  | none => none
  | some mesh0 =>
    let mesh := if mesh0.pointData.isEmpty then mesh0.elevation else mesh0
    let calls : List Call :=
      [Call.read input_file,
       Call.plotterInit true,
       Call.setBackground background_color,
       Call.addMesh mesh cmap false mesh.activeScalarsName 1 true false]
      ++ viewDispatch view_type
      ++ [Call.setViewup [0, 0, 1], Call.showScreenshot output_file]
    some (calls, output_file)

/-- The five option values of the command-line interface
(run.py lines 68-78). -/
structure Args where
  input : String
  output : String
  cmap : String
  background : String
  view : String
deriving Repr, DecidableEq

/-- The argparse defaults of run.py lines 68-78. -/
def defaultArgs : Args :=
  { input := "images/eroded_terrain.ply"
    output := "terrain_render.png"
    cmap := "terrain"
    background := "black"
    view := "isometric" }

/-- The `choices` list of the `--view` option (run.py line 77). -/
def viewChoices : List String := ["isometric", "xy", "xz", "yz"]

/-- The argparse command line parser of run.py lines 67-80, on a token
list.  Each option takes one value; `--view` is restricted to
`viewChoices`; anything else argparse rejects (`none`, an exit with
status 2 before any further work). -/
def parseArgs : List String → Args → Option Args
  | [], acc => some acc
  | flag :: value :: rest, acc =>
    if flag = "-i" ∨ flag = "--input" then
      parseArgs rest { acc with input := value }
    else if flag = "-o" ∨ flag = "--output" then
      parseArgs rest { acc with output := value }
    else if flag = "-c" ∨ flag = "--cmap" then
      parseArgs rest { acc with cmap := value }
    else if flag = "-b" ∨ flag = "--background" then
      parseArgs rest { acc with background := value }
    else if flag = "-v" ∨ flag = "--view" then
      if value ∈ viewChoices then parseArgs rest { acc with view := value }
      else none
    else none
  | _ :: [], _ => none

/-- Outcome of one run of the `__main__` block of run.py lines 65-96. -/
inductive CliResult where
  | parseError
  | errorExit (message : String) (code : Nat)
  | libraryError (calls : List Call)
  | success (calls : List Call) (printed : String)
deriving Repr, DecidableEq

/-- The library calls a CLI run performed (none on an error exit, which
happens before any rendering). -/
def CliResult.trace : CliResult → List Call
  | CliResult.success t _ => t
  | CliResult.libraryError t => t
  | _ => []

/-- The screenshot files written during a list of library calls. -/
def screenshotsOf (calls : List Call) : List String :=
  calls.filterMap fun c =>
    match c with
    | Call.showScreenshot p => some p
    | _ => none

/-- The `__main__` block of run.py lines 65-96: parse the arguments,
check that the input file exists (the script's single failure check,
lines 83-85: print an error and exit with status 1), otherwise call
`render_terrain` with the parsed options and print the returned path.
`fileExists` stands for `os.path.exists`. -/
def cliMain (fileExists : String → Bool) (load : String → Option Mesh)
    (argv : List String) : CliResult :=
  match parseArgs argv defaultArgs with
  | none => CliResult.parseError
  | some args =>
    if fileExists args.input then
      match renderTerrain load args.input args.output args.cmap
          args.background args.view with
      | none => CliResult.libraryError [Call.read args.input]
      | some (calls, out) =>
          CliResult.success calls ("Imagen generada correctamente: " ++ out)
    else
      CliResult.errorExit ("ERROR: El archivo " ++ args.input ++ " no existe") 1

/-- Modelled from the spec: the batch variant of the script is not under
src/ (only the single-render CLI is).  The spec: it "batch-renders a
fixed sequence of ten numbered terrain files and stitches the resulting
PNGs into a looping GIF animation", its behavior being calls to the
renderer "plus a thin call into an image-sequence-to-GIF encoder".
A `BatchCall` is one of those two kinds of invocation. -/
inductive BatchCall where
  | renderFrame (input : String) (output : String)
  | gifEncode (frames : List String) (looping : Bool)
deriving Repr, DecidableEq

/-- Modelled from the spec: the fixed sequence of ten numbered terrain
input files of the batch variant. -/
def batchInputs : List String :=
  (List.range 10).map fun i => "images/eroded_terrain_" ++ toString i ++ ".ply"

/-- Modelled from the spec: the PNG frame rendered from each numbered
terrain file. -/
def batchOutputs : List String :=
  (List.range 10).map fun i => "terrain_render_" ++ toString i ++ ".png"

/-- Modelled from the spec: the batch variant renders each of the ten
numbered terrain files to a PNG, then invokes the image-sequence-to-GIF
encoder once on the ten rendered frames, looping. -/
def batchMain : List BatchCall :=
  (batchInputs.zip batchOutputs).map (fun p => BatchCall.renderFrame p.1 p.2)
    ++ [BatchCall.gifEncode batchOutputs true]

/-- True on the GIF-encoder invocation of the batch variant. -/
def isGifEncode : BatchCall → Bool
  | BatchCall.gifEncode _ _ => true
  | _ => false

/-- True on a render invocation of the batch variant. -/
def isRenderFrame : BatchCall → Bool
  | BatchCall.renderFrame _ _ => true
  | _ => false

/-- True on the four camera-view preset calls. -/
def isViewCall : Call → Bool
  | Call.viewIsometric => true
  | Call.viewXY => true
  | Call.viewXZ => true
  | Call.viewYZ => true
  | _ => false

/-- A concrete mesh carrying a point-data array, for witnesses. -/
def demoMesh : Mesh := { pointData := ["height"], activeScalarsName := "height" }

/-- A file system on which every path loads `demoMesh`, for witnesses. -/
def demoLoad : String → Option Mesh := fun _ => some demoMesh

/-- The mesh actually passed to `add_mesh`: the loaded one, or its
elevation copy when it carried no point data (run.py lines 30-31). -/
def coloredMesh (m : Mesh) : Mesh :=
  if m.pointData.isEmpty then m.elevation else m

lemma renderTerrain_eq (load : String → Option Mesh)
    (inp outp c b v : String) (m : Mesh) (h : load inp = some m) :
    renderTerrain load inp outp c b v =
      some ([Call.read inp, Call.plotterInit true, Call.setBackground b,
             Call.addMesh (coloredMesh m) c false (coloredMesh m).activeScalarsName
               1 true false]
            ++ viewDispatch v
            ++ [Call.setViewup [0, 0, 1], Call.showScreenshot outp], outp) := by
  unfold renderTerrain coloredMesh
  rw [h]

lemma renderTerrain_eq_none (load : String → Option Mesh)
    (inp outp c b v : String) (h : load inp = none) :
    renderTerrain load inp outp c b v = none := by
  unfold renderTerrain
  rw [h]

lemma mem_viewDispatch (c : Call) (v : String) (h : c ∈ viewDispatch v) :
    c = Call.viewIsometric ∨ c = Call.viewXY ∨ c = Call.viewXZ ∨ c = Call.viewYZ := by
  unfold viewDispatch at h
  repeat' split at h
  all_goals simp_all

lemma viewDispatch_eq_nil (v : String) (hv : v ∉ viewChoices) :
    viewDispatch v = [] := by
  simp only [viewChoices, List.mem_cons, List.not_mem_nil, or_false, not_or] at hv
  obtain ⟨h1, h2, h3, h4⟩ := hv
  simp [viewDispatch, h1, h2, h3, h4]

lemma parseArgs_view (v : String) :
    parseArgs ["--view", v] defaultArgs =
      if v ∈ viewChoices then some { defaultArgs with view := v } else none := by
  simp [parseArgs]

/-- C1: the repository holds two near-duplicate variants.  The CLI
variant performs a single render: a successful run writes exactly one
screenshot.  The batch variant renders the fixed sequence of ten
numbered terrain files and makes exactly one call to the
image-sequence-to-GIF encoder, on the ten rendered frames, looping. -/
theorem two_script_variants :
    screenshotsOf (cliMain (fun _ => true) demoLoad ["--input", "frame.ply"]).trace =
      ["terrain_render.png"] ∧
    batchMain.filter isGifEncode = [BatchCall.gifEncode batchOutputs true] ∧
    batchOutputs.length = 10 ∧
    (batchMain.filter isRenderFrame).length = 10 ∧
    batchMain =
      (batchInputs.zip batchOutputs).map (fun p => BatchCall.renderFrame p.1 p.2)
        ++ [BatchCall.gifEncode batchOutputs true] := by
  refine ⟨?_, ?_, ?_, ?_, rfl⟩ <;> decide

/-- C2: the single failure check of the program.  For every parsed
command line whose input path does not exist, the CLI exits with
status 1 and the fixed error message, having made no library call and
written no image; and whenever the input path does exist, the error
exit is never taken (no other error condition is checked: the run
proceeds straight into the library calls). -/
theorem cli_existence_check
    (fileExists : String → Bool) (load : String → Option Mesh)
    (argv : List String) (a : Args)
    (hp : parseArgs argv defaultArgs = some a) :
    (fileExists a.input = false →
       cliMain fileExists load argv =
         CliResult.errorExit ("ERROR: El archivo " ++ a.input ++ " no existe") 1 ∧
       (cliMain fileExists load argv).trace = [] ∧
       screenshotsOf (cliMain fileExists load argv).trace = []) ∧
    (fileExists a.input = true →
       ∀ (msg : String) (code : Nat),
         cliMain fileExists load argv ≠ CliResult.errorExit msg code) := by
  constructor
  · intro hne
    unfold cliMain
    rw [hp]
    simp [CliResult.trace, screenshotsOf, hne]
  · intro hex msg code
    unfold cliMain
    rw [hp]
    simp only [hex, if_true]
    cases hr : renderTerrain load a.input a.output a.cmap a.background a.view with
    | none => simp
    | some p => cases p with
      | mk t o => simp

theorem cli_existence_check_witness :
    cliMain (fun _ => false) demoLoad [] =
      CliResult.errorExit ("ERROR: El archivo " ++ defaultArgs.input ++ " no existe") 1 ∧
    (cliMain (fun _ => false) demoLoad []).trace = [] ∧
    screenshotsOf (cliMain (fun _ => false) demoLoad []).trace = [] :=
  (cli_existence_check (fun _ => false) demoLoad [] defaultArgs rfl).1 rfl

/-- C3: whenever the mesh library can load the input file,
`render_terrain` loads the mesh from `input_file`, adds it colored by
the color map, saves a screenshot at `output_file`, and returns
`output_file`. -/
theorem renderTerrain_loads_colors_saves
    (load : String → Option Mesh) (inp outp c b v : String) (m : Mesh)
    (h : load inp = some m) :
    ∃ t : List Call, renderTerrain load inp outp c b v = some (t, outp) ∧
      Call.read inp ∈ t ∧
      (∃ mu : Mesh, Call.addMesh mu c false mu.activeScalarsName 1 true false ∈ t) ∧
      Call.showScreenshot outp ∈ t := by
  refine ⟨_, renderTerrain_eq load inp outp c b v m h, ?_, ⟨coloredMesh m, ?_⟩, ?_⟩ <;> simp

theorem renderTerrain_loads_colors_saves_witness :
    ∃ t : List Call,
      renderTerrain demoLoad "in.ply" "out.png" "terrain" "black" "isometric" =
        some (t, "out.png") ∧
      Call.read "in.ply" ∈ t ∧
      (∃ mu : Mesh,
        Call.addMesh mu "terrain" false mu.activeScalarsName 1 true false ∈ t) ∧
      Call.showScreenshot "out.png" ∈ t :=
  renderTerrain_loads_colors_saves demoLoad "in.ply" "out.png" "terrain" "black"
    "isometric" demoMesh rfl

/-- C4: on every successful run of `render_terrain` the library calls
come in the fixed order mesh loading, plotter setup, scalar coloring,
camera view selection, view-up, off-screen rasterization with
screenshot export; a view type outside the four presets is the only
deviation, and it only drops the view-selection call. -/
theorem renderTerrain_call_order
    (load : String → Option Mesh) (inp outp c b v : String) (m : Mesh)
    (h : load inp = some m) :
    ∃ mu : Mesh,
      (renderTerrain load inp outp c b v).map Prod.fst =
        some ([Call.read inp, Call.plotterInit true, Call.setBackground b,
               Call.addMesh mu c false mu.activeScalarsName 1 true false]
              ++ viewDispatch v
              ++ [Call.setViewup [0, 0, 1], Call.showScreenshot outp]) ∧
      (v ∉ viewChoices → viewDispatch v = []) ∧
      (v ∈ viewChoices → ∃ cv : Call, viewDispatch v = [cv] ∧ isViewCall cv = true) := by
  refine ⟨coloredMesh m, ?_, viewDispatch_eq_nil v, ?_⟩
  · rw [renderTerrain_eq load inp outp c b v m h]
    rfl
  · intro hv
    simp only [viewChoices, List.mem_cons, List.not_mem_nil, or_false] at hv
    rcases hv with rfl | rfl | rfl | rfl
    · exact ⟨Call.viewIsometric, by simp [viewDispatch], rfl⟩
    · exact ⟨Call.viewXY, by simp [viewDispatch], rfl⟩
    · exact ⟨Call.viewXZ, by simp [viewDispatch], rfl⟩
    · exact ⟨Call.viewYZ, by simp [viewDispatch], rfl⟩

theorem renderTerrain_call_order_witness :
    ∃ mu : Mesh,
      (renderTerrain demoLoad "in.ply" "out.png" "c" "b" "xy").map Prod.fst =
        some ([Call.read "in.ply", Call.plotterInit true, Call.setBackground "b",
               Call.addMesh mu "c" false mu.activeScalarsName 1 true false]
              ++ viewDispatch "xy"
              ++ [Call.setViewup [0, 0, 1], Call.showScreenshot "out.png"]) ∧
      ("xy" ∉ viewChoices → viewDispatch "xy" = []) ∧
      ("xy" ∈ viewChoices →
        ∃ cv : Call, viewDispatch "xy" = [cv] ∧ isViewCall cv = true) :=
  renderTerrain_call_order demoLoad "in.ply" "out.png" "c" "b" "xy" demoMesh rfl

/-- C5: rendering is always off screen: every successful run constructs
the plotter with off_screen true (and with no other value), and writes
the scene to the screenshot file. -/
theorem renderTerrain_offscreen
    (load : String → Option Mesh) (inp outp c b v : String) (m : Mesh)
    (h : load inp = some m) :
    ∃ t : List Call, renderTerrain load inp outp c b v = some (t, outp) ∧
      Call.plotterInit true ∈ t ∧
      (∀ off : Bool, Call.plotterInit off ∈ t → off = true) ∧
      Call.showScreenshot outp ∈ t := by
  refine ⟨_, renderTerrain_eq load inp outp c b v m h, by simp, ?_, by simp⟩
  intro off hoff
  simp only [List.mem_append, List.mem_cons, List.not_mem_nil, or_false] at hoff
  rcases hoff with ((hc | hc | hc | hc) | hc) | (hc | hc)
  · exact absurd hc (by simp)
  · exact (Call.plotterInit.injEq off true).mp hc
  · exact absurd hc (by simp)
  · exact absurd hc (by simp)
  · rcases mem_viewDispatch _ _ hc with h4 | h4 | h4 | h4 <;> simp at h4
  · exact absurd hc (by simp)
  · exact absurd hc (by simp)

theorem renderTerrain_offscreen_witness :
    ∃ t : List Call,
      renderTerrain demoLoad "in.ply" "shot.png" "c" "b" "yz" = some (t, "shot.png") ∧
      Call.plotterInit true ∈ t ∧
      (∀ off : Bool, Call.plotterInit off ∈ t → off = true) ∧
      Call.showScreenshot "shot.png" ∈ t :=
  renderTerrain_offscreen demoLoad "in.ply" "shot.png" "c" "b" "yz" demoMesh rfl

/-- C6: the CLI accepts exactly the four values isometric, xy, xz, yz
for the --view option and rejects any other value; and for each of the
four, `render_terrain` makes the corresponding view-selection call. -/
theorem cli_view_choices :
    (∀ v : String,
       (∃ a : Args, parseArgs ["--view", v] defaultArgs = some a) ↔
         (v = "isometric" ∨ v = "xy" ∨ v = "xz" ∨ v = "yz")) ∧
    (∀ (load : String → Option Mesh) (inp outp c b : String) (m : Mesh),
       load inp = some m →
       (∃ t, renderTerrain load inp outp c b "isometric" = some (t, outp) ∧
          Call.viewIsometric ∈ t) ∧
       (∃ t, renderTerrain load inp outp c b "xy" = some (t, outp) ∧
          Call.viewXY ∈ t) ∧
       (∃ t, renderTerrain load inp outp c b "xz" = some (t, outp) ∧
          Call.viewXZ ∈ t) ∧
       (∃ t, renderTerrain load inp outp c b "yz" = some (t, outp) ∧
          Call.viewYZ ∈ t)) := by
  constructor
  · intro v
    rw [parseArgs_view v]
    by_cases hv : v ∈ viewChoices
    · simp only [viewChoices, List.mem_cons, List.not_mem_nil, or_false] at hv
      simp [viewChoices, hv]
    · have hv2 := hv
      simp only [viewChoices, List.mem_cons, List.not_mem_nil, or_false] at hv2
      simp [viewChoices, hv, hv2]
  · intro load inp outp c b m h
    refine ⟨⟨_, renderTerrain_eq load inp outp c b "isometric" m h, ?_⟩,
            ⟨_, renderTerrain_eq load inp outp c b "xy" m h, ?_⟩,
            ⟨_, renderTerrain_eq load inp outp c b "xz" m h, ?_⟩,
            ⟨_, renderTerrain_eq load inp outp c b "yz" m h, ?_⟩⟩ <;>
      simp [viewDispatch]

theorem cli_view_choices_witness :
    ∃ t, renderTerrain demoLoad "in.ply" "out.png" "c" "b" "isometric" =
        some (t, "out.png") ∧ Call.viewIsometric ∈ t :=
  (cli_view_choices.2 demoLoad "in.ply" "out.png" "c" "b" demoMesh rfl).1

/-- C7: per-point scalars are optional in the input.  When the loaded
mesh carries no point-data arrays, elevation scalars are computed and
the mesh is colored by them; otherwise the loaded mesh is passed to the
coloring call unchanged, colored by its existing active scalars. -/
theorem elevation_fallback
    (load : String → Option Mesh) (inp outp c b v : String) (m : Mesh)
    (h : load inp = some m) :
    ∃ t : List Call, renderTerrain load inp outp c b v = some (t, outp) ∧
      (m.pointData.isEmpty = true →
        Call.addMesh m.elevation c false "Elevation" 1 true false ∈ t) ∧
      (m.pointData.isEmpty = false →
        Call.addMesh m c false m.activeScalarsName 1 true false ∈ t) := by
  refine ⟨_, renderTerrain_eq load inp outp c b v m h, ?_, ?_⟩
  · intro he
    simp [coloredMesh, he, Mesh.elevation]
  · intro he
    simp [coloredMesh, he]

theorem elevation_fallback_witness :
    ∃ t : List Call,
      renderTerrain demoLoad "in.ply" "out.png" "c" "b" "isometric" =
        some (t, "out.png") ∧
      (demoMesh.pointData.isEmpty = true →
        Call.addMesh demoMesh.elevation "c" false "Elevation" 1 true false ∈ t) ∧
      (demoMesh.pointData.isEmpty = false →
        Call.addMesh demoMesh "c" false demoMesh.activeScalarsName 1 true false ∈ t) :=
  elevation_fallback demoLoad "in.ply" "out.png" "c" "b" "isometric" demoMesh rfl

/-- C8: whenever `render_terrain` succeeds, its return value is exactly
the `output_file` argument it was given, unchanged. -/
theorem renderTerrain_returns_output
    (load : String → Option Mesh) (inp outp c b v : String)
    (t : List Call) (r : String)
    (h : renderTerrain load inp outp c b v = some (t, r)) : r = outp := by
  cases hl : load inp with
  | none =>
    rw [renderTerrain_eq_none load inp outp c b v hl] at h
    exact absurd h (by simp)
  | some m =>
    rw [renderTerrain_eq load inp outp c b v m hl] at h
    exact (Prod.mk.injEq _ _ _ _ ▸ (Option.some.injEq _ _ ▸ h)).2.symm

theorem renderTerrain_returns_output_witness : ("out.png" : String) = "out.png" :=
  renderTerrain_returns_output demoLoad "in.ply" "out.png" "c" "b" "isometric"
    ([Call.read "in.ply", Call.plotterInit true, Call.setBackground "b",
      Call.addMesh demoMesh "c" false "height" 1 true false]
     ++ viewDispatch "isometric"
     ++ [Call.setViewup [0, 0, 1], Call.showScreenshot "out.png"]) "out.png"
    (renderTerrain_eq demoLoad "in.ply" "out.png" "c" "b" "isometric" demoMesh rfl)

/-- C9: the argparse defaults coincide with the default parameter values
of `render_terrain`: parsing an empty command line yields exactly the
default record, plugging that record into `render_terrain` is the same
function of the file system as calling `render_terrain` with every
argument left to its default, and the five default values are the
literals the claim lists. -/
theorem cli_defaults_match :
    parseArgs [] defaultArgs = some defaultArgs ∧
    (∀ load : String → Option Mesh,
       renderTerrain load defaultArgs.input defaultArgs.output defaultArgs.cmap
         defaultArgs.background defaultArgs.view = renderTerrain load) ∧
    defaultArgs.input = "images/eroded_terrain.ply" ∧
    defaultArgs.output = "terrain_render.png" ∧
    defaultArgs.cmap = "terrain" ∧
    defaultArgs.background = "black" ∧
    defaultArgs.view = "isometric" :=
  ⟨rfl, fun _ => rfl, rfl, rfl, rfl, rfl, rfl⟩

/-- C10: a view_type outside the four presets raises no error and makes
no view-selection call; and on every successful run, whatever the
view_type, the view-up direction is set to [0, 0, 1] right after the
view dispatch, just before the screenshot. -/
theorem view_fallthrough_viewup
    (load : String → Option Mesh) (inp outp c b : String) (m : Mesh)
    (h : load inp = some m) :
    (∀ v : String, v ∉ viewChoices →
       ∃ t, renderTerrain load inp outp c b v = some (t, outp) ∧
         ∀ x ∈ t, isViewCall x = false) ∧
    (∀ v : String, ∃ t0 : List Call,
       (renderTerrain load inp outp c b v).map Prod.fst =
         some (t0 ++ [Call.setViewup [0, 0, 1], Call.showScreenshot outp]) ∧
       viewDispatch v <:+ t0) := by
  constructor
  · intro v hv
    refine ⟨_, renderTerrain_eq load inp outp c b v m h, ?_⟩
    intro x hx
    rw [viewDispatch_eq_nil v hv] at hx
    simp only [List.append_nil, List.mem_append, List.mem_cons,
      List.not_mem_nil, or_false] at hx
    rcases hx with (rfl | rfl | rfl | rfl) | (rfl | rfl) <;> rfl
  · intro v
    refine ⟨[Call.read inp, Call.plotterInit true, Call.setBackground b,
             Call.addMesh (coloredMesh m) c false (coloredMesh m).activeScalarsName
               1 true false] ++ viewDispatch v, ?_, List.suffix_append _ _⟩
    rw [renderTerrain_eq load inp outp c b v m h]
    simp [List.append_assoc]

theorem view_fallthrough_viewup_witness :
    ∃ t, renderTerrain demoLoad "in.ply" "out.png" "c" "b" "top" =
        some (t, "out.png") ∧ ∀ x ∈ t, isViewCall x = false :=
  (view_fallthrough_viewup demoLoad "in.ply" "out.png" "c" "b" demoMesh rfl).1
    "top" (by decide)

end Terrain
